import Mathlib

/-!
# Verification of the Raya native-extension boundary examples

Shallow embedding of the Raya FFI example modules
(`crates/raya-ffi/examples/crypto.cpp`, `crates/raya-ffi/examples/fs.cpp`)
and the C API surface of `crates/raya-ffi/include/raya.h`.

C strings are modelled as lists of byte values (`List Nat`, each byte
`< 256`, and nonzero for content bytes of a C string).  Raya runtime
values are modelled by the inductive `RayaValue`.  Parts of the runtime
that are only declared, not defined, in the repository (the value
accessors of `raya/module.h`, the module builder, the engine's dispatch
of native calls, and the C API implementation behind `raya.h`) are
modelled from the specification, as marked in their doc comments.
-/

/-- Byte encoding of an ASCII string literal: the code points of its
characters.  Used to embed the C string literals of the source. -/
def ascii (s : String) : List Nat := s.data.map Char.toNat

/-- Runtime value of the Raya VM, as enumerated in `raya.h`
(null, boolean, 32-bit integer, string, array, error).  Strings and
error messages carry their C-string byte content. -/
inductive RayaValue where
  | vnull : RayaValue
  | vbool (b : Bool) : RayaValue
  | vi32 (n : Int) : RayaValue
  | vstr (s : List Nat) : RayaValue
  | varr (elems : List RayaValue) : RayaValue
  | verr (msg : List Nat) : RayaValue

/-- Modelled from the spec: accessor `raya_value_to_string` (declared in
`raya/module.h`, which is absent from the sources) returns the string
content, or the NULL sentinel when the handle's runtime type is not a
string (§4.2: "each returning a sentinel (`null`/`0`/`false`) when the
handle's runtime type does not match"). -/
def raya_value_to_string : RayaValue → Option (List Nat)
  | .vstr s => some s
  | _ => none

/-- Modelled from the spec: accessor `raya_value_to_i32` returns the
integer, or the sentinel `0` when the runtime type is not an i32. -/
def raya_value_to_i32 : RayaValue → Int
  | .vi32 n => n
  | _ => 0

/-- Modelled from the spec: accessor `raya_value_to_bool` returns the
boolean, or the sentinel `false` when the runtime type is not a bool. -/
def raya_value_to_bool : RayaValue → Bool
  | .vbool b => b
  | _ => false

/-- `RayaValue.isStr v` iff the runtime type of `v` is string. -/
def RayaValue.isStr : RayaValue → Bool
  | .vstr _ => true
  | _ => false

/-- `RayaValue.isI32 v` iff the runtime type of `v` is 32-bit integer. -/
def RayaValue.isI32 : RayaValue → Bool
  | .vi32 _ => true
  | _ => false

/-! ## crypto.cpp: the `native:crypto` example module -/

/-- One `%02x` conversion of `sprintf` for an `unsigned char`: the two
lowercase hexadecimal digits of a byte (`crypto.cpp` lines 84-89 and
100-105). -/
def hexDigit (n : Nat) : Nat := if n < 10 then 48 + n else 87 + n

/-- The two hex digits `%02x` prints for byte `b < 256`. -/
def hexByte (b : Nat) : List Nat := [hexDigit (b / 16), hexDigit (b % 16)]

/-- Hex string of a digest, as built by the conversion loop of
`native_hash`: two lowercase hex characters per digest byte. -/
def toHexString (digest : List Nat) : List Nat := (digest.map hexByte).flatten

/-- `native_hash` from `crypto.cpp` (lines 58-115).  The SHA-256 and
SHA-512 digest computations are calls into OpenSSL, an external
collaborator; they are passed in as oracle functions mapping the data
bytes to the digest bytes (32 respectively 64 bytes for a conforming
library). -/
def native_hash (sha256 sha512 : List Nat → List Nat)
    (args : List RayaValue) : RayaValue :=
  if args.length ≠ 2 then .verr (ascii "hash() requires 2 arguments")
  else
    match raya_value_to_string (args.getD 0 .vnull) with
    | none => .verr (ascii "First argument must be a string")
    | some algorithm =>
      match raya_value_to_string (args.getD 1 .vnull) with
      | none => .verr (ascii "Second argument must be a string")
      | some data =>
        if algorithm = ascii "sha256" then
          .vstr (toHexString (sha256 data))
        else if algorithm = ascii "sha512" then
          .vstr (toHexString (sha512 data))
        else
          .verr (ascii "Unsupported hash algorithm: " ++ algorithm ++
                 ascii " (supported: sha256, sha512)")

/-- `native_random_bytes` from `crypto.cpp` (lines 122-151).  The
Mersenne-twister draws `dis(gen)` are an external source of entropy,
passed in as an oracle `rand`; `static_cast<uint8_t>` truncates each
draw modulo 256. -/
def native_random_bytes (rand : Nat → Nat)
    (args : List RayaValue) : RayaValue :=
  if args.length ≠ 1 then .verr (ascii "randomBytes() requires 1 argument")
  else
    let length := raya_value_to_i32 (args.getD 0 .vnull)
    if length ≤ 0 ∨ length > 1024 * 1024 then
      .verr (ascii "Length must be between 1 and 1048576")
    else
      .varr ((List.range length.toNat).map fun i => .vi32 (rand i % 256))

/-- The comparison loop of `native_constant_time_equal` (`crypto.cpp`
lines 174-181): `result` starts at 0 and accumulates, for `i` from 0 to
`max_len - 1`, the OR of the XOR of the byte of each input at `i`
(with the padding byte 0 past an input's end).  The accumulator is a
C `int`; every value OR-ed in is below 256, so no truncation occurs
inside the loop. -/
def ctLoop (a b : List Nat) : Nat :=
  (List.range (max a.length b.length)).foldl
    (fun result i =>
      result |||
        ((if i < a.length then a.getD i 0 else 0) ^^^
         (if i < b.length then b.getD i 0 else 0)))
    0

/-- The final value of `result` in `native_constant_time_equal`
(`crypto.cpp` line 184): the loop accumulator OR-ed with
`len_a ^ len_b`.  `result` is a C `int`, so the comparison
`result == 0` on line 186 observes only its low 32 bits; the
reduction modulo `2 ^ 32` models the conversion of the `size_t`
OR back into `int`. -/
def ctResult (a b : List Nat) : Nat :=
  (ctLoop a b ||| (a.length ^^^ b.length)) % 2 ^ 32

/-- `native_constant_time_equal` from `crypto.cpp` (lines 158-187). -/
def native_constant_time_equal (args : List RayaValue) : RayaValue :=
  if args.length ≠ 2 then
    .verr (ascii "constantTimeEqual() requires 2 arguments")
  else
    match raya_value_to_string (args.getD 0 .vnull),
          raya_value_to_string (args.getD 1 .vnull) with
    | some a, some b => .vbool (ctResult a b == 0)
    | _, _ => .verr (ascii "Both arguments must be strings")

/-- The sequence of reads the comparison loop of
`native_constant_time_equal` performs: for each iteration `i` of
`0, ..., max_len - 1`, the byte read from `a` (or the padding 0) and
the byte read from `b` (or the padding 0). -/
def ctReads (a b : List Nat) : List (Nat × Nat) :=
  (List.range (max a.length b.length)).map fun i =>
    ((if i < a.length then a.getD i 0 else 0),
     (if i < b.length then b.getD i 0 else 0))

/-! ## fs.cpp: the `native:fs` example module

The operating-system filesystem is an external collaborator; its
observable responses are collected in an `FsState` environment.  The
branching of each `fs_ops` function and every error-message string are
translated literally from `fs.cpp`. -/

/-- Environment the filesystem presents to `fs.cpp`: for each path, the
readable content (none when the `ifstream` fails to open), whether an
`ofstream` opens and whether writing to it succeeds, the entries a
`directory_iterator` yields (none when it throws, with `listDirExc` the
exception text), and the `error_code` outcomes of `create_directories`
and `remove`. -/
structure FsState where
  files : List Nat → Option (List Nat)
  openWriteOk : List Nat → Bool
  writeOk : List Nat → Bool
  existsB : List Nat → Bool
  dirEntries : List Nat → Option (List (List Nat))
  listDirExc : List Nat → List Nat
  mkdirEc : List Nat → Option (List Nat)
  mkdirCreated : List Nat → Bool
  removeEc : List Nat → Option (List Nat)
  removeRemoved : List Nat → Bool

namespace fs_ops

/-- `fs_ops::read_file` from `fs.cpp` (lines 139-155): the content on
success, `"Failed to open file: " + path` when the stream does not
open.  `raya::Result<T>` is `std::variant<T, std::string>`; the error
alternative is modelled by `Except.error`. -/
def read_file (fs : FsState) (path : List Nat) :
    Except (List Nat) (List Nat) :=
  match fs.files path with
  | some content => .ok content
  | none => .error (ascii "Failed to open file: " ++ path)

/-- `fs_ops::write_file` from `fs.cpp` (lines 160-176). -/
def write_file (fs : FsState) (path _content : List Nat) :
    Except (List Nat) Bool :=
  if fs.openWriteOk path then
    if fs.writeOk path then .ok true
    else .error (ascii "Failed to write to file: " ++ path)
  else .error (ascii "Failed to open file for writing: " ++ path)

/-- `fs_ops::exists` from `fs.cpp` (lines 181-183). -/
def fsexists (fs : FsState) (path : List Nat) : Bool := fs.existsB path

/-- `fs_ops::mkdir` from `fs.cpp` (lines 188-199). -/
def mkdir (fs : FsState) (path : List Nat) : Except (List Nat) Bool :=
  match fs.mkdirEc path with
  | some m => .error (ascii "Failed to create directory: " ++ m)
  | none => .ok (fs.mkdirCreated path)

/-- `fs_ops::remove` from `fs.cpp` (lines 204-215). -/
def remove (fs : FsState) (path : List Nat) : Except (List Nat) Bool :=
  match fs.removeEc path with
  | some m => .error (ascii "Failed to remove: " ++ m)
  | none => .ok (fs.removeRemoved path)

/-- `fs_ops::list_dir` from `fs.cpp` (lines 220-230). -/
def list_dir (fs : FsState) (path : List Nat) :
    Except (List Nat) (List (List Nat)) :=
  match fs.dirEntries path with
  | some entries => .ok entries
  | none => .error (ascii "Error listing directory: " ++ fs.listDirExc path)

end fs_ops

namespace TypeConverter

/-- `TypeConverter<std::string>::from_raya` from `fs.cpp` (lines 86-95):
`raya_value_to_string` followed by `str ? std::string(str) :
std::string()` — the NULL sentinel for a non-string argument becomes
the empty string. -/
def string_from_raya (v : RayaValue) : List Nat :=
  match raya_value_to_string v with
  | some s => s
  | none => []

/-- `TypeConverter<bool>::to_raya` from `fs.cpp` (lines 104-106). -/
def bool_to_raya (b : Bool) : RayaValue := .vbool b

end TypeConverter

/-- The string-visit branch of `native_read_file` (`fs.cpp` lines
255-266): the content is sniffed for the prefixes `"Error"` and
`"Failed"` (`value.find(...) == 0`) and turned into an error value on a
match, otherwise returned as a string value.  Both alternatives of
`Result<std::string>` are `std::string`, so `std::visit` applies this
same branch to the success and the error alternative alike. -/
def readFileVisit (v : List Nat) : RayaValue :=
  if (ascii "Error").isPrefixOf v ∨ (ascii "Failed").isPrefixOf v then
    .verr v
  else .vstr v

/-- `native_read_file` from `fs.cpp` (lines 247-267). -/
def native_read_file (fs : FsState) (args : List RayaValue) : RayaValue :=
  if args.length ≠ 1 then .verr (ascii "readFile() requires 1 argument")
  else
    let path := TypeConverter.string_from_raya (args.getD 0 .vnull)
    match fs_ops.read_file fs path with
    | .ok v => readFileVisit v
    | .error v => readFileVisit v

/-- `native_write_file` from `fs.cpp` (lines 272-290): success returns
the null value, the error alternative becomes an error value. -/
def native_write_file (fs : FsState) (args : List RayaValue) : RayaValue :=
  if args.length ≠ 2 then .verr (ascii "writeFile() requires 2 arguments")
  else
    let path := TypeConverter.string_from_raya (args.getD 0 .vnull)
    let content := TypeConverter.string_from_raya (args.getD 1 .vnull)
    match fs_ops.write_file fs path content with
    | .ok _ => .vnull
    | .error e => .verr e

/-- `native_exists` from `fs.cpp` (lines 295-304). -/
def native_exists (fs : FsState) (args : List RayaValue) : RayaValue :=
  if args.length ≠ 1 then .verr (ascii "exists() requires 1 argument")
  else
    let path := TypeConverter.string_from_raya (args.getD 0 .vnull)
    TypeConverter.bool_to_raya (fs_ops.fsexists fs path)

/-- `native_mkdir` from `fs.cpp` (lines 309-325). -/
def native_mkdir (fs : FsState) (args : List RayaValue) : RayaValue :=
  if args.length ≠ 1 then .verr (ascii "mkdir() requires 1 argument")
  else
    let path := TypeConverter.string_from_raya (args.getD 0 .vnull)
    match fs_ops.mkdir fs path with
    | .ok _ => .vnull
    | .error e => .verr e

/-- `native_remove` from `fs.cpp` (lines 330-346). -/
def native_remove (fs : FsState) (args : List RayaValue) : RayaValue :=
  if args.length ≠ 1 then .verr (ascii "remove() requires 1 argument")
  else
    let path := TypeConverter.string_from_raya (args.getD 0 .vnull)
    match fs_ops.remove fs path with
    | .ok b => TypeConverter.bool_to_raya b
    | .error e => .verr e

/-- `native_list_dir` from `fs.cpp` (lines 351-373). -/
def native_list_dir (fs : FsState) (args : List RayaValue) : RayaValue :=
  if args.length ≠ 1 then .verr (ascii "listDir() requires 1 argument")
  else
    let path := TypeConverter.string_from_raya (args.getD 0 .vnull)
    match fs_ops.list_dir fs path with
    | .ok entries => .varr (entries.map RayaValue.vstr)
    | .error e => .verr e

/-! ## Module registration

`raya_module_builder_new`, `raya_module_add_function` and
`raya_module_builder_finish` are declared in `raya/module.h`, which is
absent from the sources; the builder is modelled from the spec (§4.4):
a named, versioned builder accumulating (name, function pointer,
declared arity) entries in order. -/

/-- A registered native function entry: export name, function, and the
declared arity passed to `raya_module_add_function`. -/
structure ModuleEntry where
  name : String
  fn : List RayaValue → RayaValue
  arity : Nat

/-- Modelled from the spec: a finished module as produced by
`raya_module_builder_finish` — name, semantic version, and the ordered
entries added to the builder. -/
structure RayaModule where
  name : String
  version : String
  entries : List ModuleEntry

/-- `RAYA_MODULE_INIT(crypto)` from `crypto.cpp` (lines 227-233): the
builder registers `hash` with arity 2, `randomBytes` with arity 1 and
`constantTimeEqual` with arity 2. -/
def raya_module_init_crypto (sha256 sha512 : List Nat → List Nat)
    (rand : Nat → Nat) : RayaModule :=
  { name := "crypto", version := "1.0.0",
    entries :=
      [⟨"hash", native_hash sha256 sha512, 2⟩,
       ⟨"randomBytes", native_random_bytes rand, 1⟩,
       ⟨"constantTimeEqual", native_constant_time_equal, 2⟩] }

/-- `RAYA_MODULE_INIT(fs)` from `fs.cpp` (lines 381-392). -/
def raya_module_init_fs (fs : FsState) : RayaModule :=
  { name := "fs", version := "1.0.0",
    entries :=
      [⟨"readFile", native_read_file fs, 1⟩,
       ⟨"writeFile", native_write_file fs, 2⟩,
       ⟨"exists", native_exists fs, 1⟩,
       ⟨"mkdir", native_mkdir fs, 1⟩,
       ⟨"remove", native_remove fs, 1⟩,
       ⟨"listDir", native_list_dir fs, 1⟩] }

/-- Modelled from the spec: the engine invokes a registered native
function without comparing the call's argument count against the
declared arity (§3: "the engine does not reject calls whose argument
count differs from the declared arity; each native function must check
`argc` itself"). -/
def engine_invoke (f : List RayaValue → RayaValue) (_declaredArity : Nat)
    (args : List RayaValue) : RayaValue :=
  f args

/-! ## The C API boundary of `raya.h`

The implementation behind `raya.h` is not part of the sources (only the
header and its documentation are); the error objects, the snapshot
operation and the release functions are modelled from the spec
(§3, §4.5, §7, §8). -/

/-- The error kinds of §7, all carrying only a message string at the
boundary. -/
inductive RayaErrorKind where
  | initErr : RayaErrorKind
  | loadErr : RayaErrorKind
  | runtimeErr : RayaErrorKind
  | argumentErr : RayaErrorKind
  | unsupportedErr : RayaErrorKind
  deriving DecidableEq

/-- Modelled from the spec: an error object is an owned, opaque
container of a human-readable message (§3); the implementation MAY keep
a structured kind internally (§4.3), but the boundary exposes only the
message text. -/
structure RayaErrorObj where
  kind : RayaErrorKind
  detail : List Nat

/-- The text with which the message of each error kind begins.  The
spec requires Unsupported to be distinguishable from Runtime by callers
(§7) while the boundary carries only message text (§4.3); the only
channel able to carry the distinction is therefore the message itself,
modelled as a kind-specific leading text. -/
def kindTag : RayaErrorKind → List Nat
  | .initErr => ascii "Init: "
  | .loadErr => ascii "Load: "
  | .runtimeErr => ascii "Runtime: "
  | .argumentErr => ascii "ArgumentError: "
  | .unsupportedErr => ascii "Unsupported: "

/-- Modelled from the spec: `raya_error_message` returns the
null-terminated message of the error object and nothing else
(`raya.h` lines 242-253). -/
def raya_error_message (e : RayaErrorObj) : List Nat :=
  kindTag e.kind ++ e.detail

/-- A caller-side classifier: recovers the error kind from nothing but
the message text returned by `raya_error_message`. -/
def classifyMessage (msg : List Nat) : Option RayaErrorKind :=
  if (ascii "Init: ").isPrefixOf msg then some .initErr
  else if (ascii "Load: ").isPrefixOf msg then some .loadErr
  else if (ascii "Runtime: ").isPrefixOf msg then some .runtimeErr
  else if (ascii "ArgumentError: ").isPrefixOf msg then some .argumentErr
  else if (ascii "Unsupported: ").isPrefixOf msg then some .unsupportedErr
  else none

/-- Modelled from the spec: `raya_vm_snapshot` (`raya.h` lines 269-282)
on a build that omits snapshotting fails with the Unsupported kind
(§4.5: an engine MAY report snapshotting as unsupported; §8: "when
unsupported, `snapshot` deterministically returns the `Unsupported`
kind, never `Runtime`"); on a supporting build it fails with the
Runtime kind when the VM is not quiescent, and succeeds otherwise. -/
def raya_vm_snapshot (snapshotSupported quiescent : Bool) :
    Except RayaErrorObj Unit :=
  if snapshotSupported = false then
    .error ⟨.unsupportedErr, ascii "snapshotting is not implemented"⟩
  else if quiescent = false then
    .error ⟨.runtimeErr, ascii "VM is not quiescent"⟩
  else .ok ()

/-- Modelled from the spec: the host-visible allocator state — the sets
of live handles of each kind, and a flag recording whether any release
operation has corrupted the allocator (§8: "`free`/`destroy` on null or
already-freed-once handles is a no-op and does not corrupt the
allocator"). -/
structure AllocState where
  liveVMs : List Nat
  liveValues : List Nat
  liveErrors : List Nat
  liveSnapshots : List Nat
  corrupted : Bool

/-- Modelled from the spec: `raya_value_free` (`raya.h` lines 227-236)
releases a live value handle and is a no-op on NULL (`none`). -/
def raya_value_free (h : Option Nat) (s : AllocState) : AllocState :=
  match h with
  | none => s
  | some v => { s with liveValues := s.liveValues.filter (fun x => x ≠ v) }

/-- Modelled from the spec: `raya_error_free` (`raya.h` lines 255-263). -/
def raya_error_free (h : Option Nat) (s : AllocState) : AllocState :=
  match h with
  | none => s
  | some v => { s with liveErrors := s.liveErrors.filter (fun x => x ≠ v) }

/-- Modelled from the spec: `raya_snapshot_free` (`raya.h` lines
300-308). -/
def raya_snapshot_free (h : Option Nat) (s : AllocState) : AllocState :=
  match h with
  | none => s
  | some v =>
    { s with liveSnapshots := s.liveSnapshots.filter (fun x => x ≠ v) }

/-- Modelled from the spec: `raya_vm_destroy` (`raya.h` lines 132-142)
releases a live VM handle, and is a no-op on NULL and on an
already-destroyed handle (§3: "Destroying an already-destroyed or null
handle is a no-op"; the header: "Safe to call multiple times with the
same VM (idempotent)"). -/
def raya_vm_destroy (h : Option Nat) (s : AllocState) : AllocState :=
  match h with
  | none => s
  | some v =>
    if v ∈ s.liveVMs then
      { s with liveVMs := s.liveVMs.filter (fun x => x ≠ v) }
    else s

/-! ## Concrete environments used by the witnesses -/

/-- A concrete filesystem environment: one readable file `"f"` whose
content is `"Error!"`; writes succeed; nothing exists for `exists`;
directories list empty; `mkdir` and `remove` report no `error_code`. -/
def fsEnv0 : FsState where
  files := fun p => if p = ascii "f" then some (ascii "Error!") else none
  openWriteOk := fun _ => true
  writeOk := fun _ => true
  existsB := fun _ => false
  dirEntries := fun _ => some []
  listDirExc := fun _ => []
  mkdirEc := fun _ => none
  mkdirCreated := fun _ => true
  removeEc := fun _ => none
  removeRemoved := fun _ => true

/-- A trivial digest oracle of fixed length 32, standing in for a
conforming SHA-256 implementation in witnesses. -/
def zero32 : List Nat → List Nat := fun _ => List.replicate 32 0

/-- A trivial digest oracle of fixed length 64, standing in for a
conforming SHA-512 implementation in witnesses. -/
def zero64 : List Nat → List Nat := fun _ => List.replicate 64 0

/-- A trivial entropy oracle for witnesses. -/
def zeroRand : Nat → Nat := fun _ => 0

/-- Lowercase-hexadecimal character predicate: the byte is one of
`'0'..'9'` or `'a'..'f'`. -/
def isLowerHexDigit (c : Nat) : Prop :=
  (48 ≤ c ∧ c ≤ 57) ∨ (97 ≤ c ∧ c ≤ 102)

/-! ## Helper lemmas -/

theorem lor_eq_zero_iff {m n : Nat} : m ||| n = 0 ↔ m = 0 ∧ n = 0 := by
  constructor
  · intro h
    have hbit : ∀ i, m.testBit i = false ∧ n.testBit i = false := by
      intro i
      have h1 := congrArg (fun x => Nat.testBit x i) h
      simp only [Nat.testBit_lor, Nat.zero_testBit, Bool.or_eq_false_iff] at h1
      exact h1
    constructor
    · exact Nat.eq_of_testBit_eq fun i => by
        rw [(hbit i).1, Nat.zero_testBit]
    · exact Nat.eq_of_testBit_eq fun i => by
        rw [(hbit i).2, Nat.zero_testBit]
  · rintro ⟨rfl, rfl⟩
    rfl

theorem foldl_lor_eq_zero_iff (f : Nat → Nat) (n : Nat) :
    ∀ s, ((List.range n).foldl (fun r i => r ||| f i) s = 0 ↔
      s = 0 ∧ ∀ i < n, f i = 0) := by
  induction n with
  | zero => intro s; simp
  | succ n ih =>
    intro s
    rw [List.range_succ, List.foldl_append, List.foldl_cons, List.foldl_nil,
        lor_eq_zero_iff, ih s]
    constructor
    · rintro ⟨⟨hs, hall⟩, hn⟩
      refine ⟨hs, fun i hi => ?_⟩
      rcases Nat.lt_succ_iff_lt_or_eq.mp hi with h | rfl
      · exact hall i h
      · exact hn
    · rintro ⟨hs, hall⟩
      exact ⟨⟨hs, fun i hi => hall i (Nat.lt_succ_of_lt hi)⟩,
        hall n (Nat.lt_succ_self n)⟩

theorem foldl_lor_lt (f : Nat → Nat) (k : Nat) (hf : ∀ i, f i < 2 ^ k)
    (n : Nat) : ∀ s, s < 2 ^ k →
      (List.range n).foldl (fun r i => r ||| f i) s < 2 ^ k := by
  induction n with
  | zero => intro s hs; simpa using hs
  | succ n ih =>
    intro s hs
    rw [List.range_succ, List.foldl_append, List.foldl_cons, List.foldl_nil]
    exact Nat.or_lt_two_pow (ih s hs) (hf n)

theorem getD_mem_of_lt {l : List Nat} {i : Nat} (h : i < l.length) :
    l.getD i 0 ∈ l := by
  rw [List.getD_eq_getElem?_getD, List.getElem?_eq_getElem h]
  exact List.getElem_mem h

theorem append_ne_of_first_ne (p q r : List Nat) (hp : 0 < p.length)
    (h : p.getD 0 0 ≠ r.getD 0 0) : p ++ q ≠ r := by
  intro he
  apply h
  rw [← List.getD_append p q 0 0 hp, he]

theorem append_ne_append_of_first_ne (p q r s : List Nat)
    (hp : 0 < p.length) (hr : 0 < r.length)
    (h : p.getD 0 0 ≠ r.getD 0 0) : p ++ q ≠ r ++ s := by
  intro he
  apply h
  rw [← List.getD_append p q 0 0 hp, he, List.getD_append r s 0 0 hr]

theorem isPrefixOf_false_of_first_ne (p q t : List Nat)
    (hp : 0 < p.length) (hq : 0 < q.length)
    (h : p.getD 0 0 ≠ q.getD 0 0) : p.isPrefixOf (q ++ t) = false := by
  rw [Bool.eq_false_iff]
  intro hpre
  rw [ List.isPrefixOf_iff_prefix] at hpre
  rcases hpre with ⟨u, hu⟩
  apply h
  rw [← List.getD_append p u 0 0 hp, hu, List.getD_append q t 0 0 hq]

theorem isPrefixOf_append_self (p t : List Nat) :
    p.isPrefixOf (p ++ t) = true := by
  simp [ List.isPrefixOf_iff_prefix]

/-- The comparison loop's accumulator vanishes exactly when every
(padded) byte pair agrees. -/
theorem ctLoop_eq_zero_iff (a b : List Nat) :
    ctLoop a b = 0 ↔
      ∀ i < max a.length b.length,
        (if i < a.length then a.getD i 0 else 0) =
        (if i < b.length then b.getD i 0 else 0) := by
  unfold ctLoop
  rw [foldl_lor_eq_zero_iff
    (fun i => ((if i < a.length then a.getD i 0 else 0) ^^^
               (if i < b.length then b.getD i 0 else 0)))
    (max a.length b.length) 0]
  simp [Nat.xor_eq_zero]

theorem ctLoop_lt (a b : List Nat) (ha : ∀ c ∈ a, c < 256)
    (hb : ∀ c ∈ b, c < 256) : ctLoop a b < 2 ^ 8 := by
  unfold ctLoop
  refine foldl_lor_lt _ 8 (fun i => ?_) _ 0 (by decide)
  refine Nat.xor_lt_two_pow ?_ ?_
  · split
    · next h => exact ha _ (getD_mem_of_lt h)
    · decide
  · split
    · next h => exact hb _ (getD_mem_of_lt h)
    · decide

/-- Core of C1: `result == 0` at line 186 of `crypto.cpp` holds exactly
when the two C strings have equal content. -/
theorem ctResult_eq_zero_iff (a b : List Nat)
    (ha : ∀ c ∈ a, 0 < c ∧ c < 256) (hb : ∀ c ∈ b, 0 < c ∧ c < 256) :
    ctResult a b = 0 ↔ a = b := by
  constructor
  · intro h
    unfold ctResult at h
    have hlt : ctLoop a b < 2 ^ 8 :=
      ctLoop_lt a b (fun c hc => (ha c hc).2) (fun c hc => (hb c hc).2)
    have hL0 : ctLoop a b = 0 := by
      refine Nat.eq_of_testBit_eq fun i => ?_
      rw [Nat.zero_testBit]
      by_cases hi : i < 32
      · have h1 := congrArg (fun x => Nat.testBit x i) h
        simp only [Nat.testBit_mod_two_pow, Nat.zero_testBit, hi,
          decide_True, Bool.true_and, Nat.testBit_lor,
          Bool.or_eq_false_iff] at h1
        exact h1.1
      · refine Nat.testBit_lt_two_pow (lt_of_lt_of_le hlt ?_)
        exact Nat.pow_le_pow_right (by omega) (by omega)
    have hpad := (ctLoop_eq_zero_iff a b).mp hL0
    have hlen : a.length = b.length := by
      by_contra hne
      rcases Nat.lt_or_ge a.length b.length with hlt' | hge
      · have hp := hpad a.length (by omega)
        rw [if_neg (by omega), if_pos hlt'] at hp
        have := (hb _ (getD_mem_of_lt hlt')).1
        omega
      · have hlt' : b.length < a.length := by omega
        have hp := hpad b.length (by omega)
        rw [if_pos hlt', if_neg (by omega)] at hp
        have := (ha _ (getD_mem_of_lt hlt')).1
        omega
    refine List.ext_getElem hlen fun i h1 h2 => ?_
    have hp := hpad i (by omega)
    rw [if_pos h1, if_pos h2] at hp
    rw [List.getD_eq_getElem?_getD, List.getElem?_eq_getElem h1] at hp
    rw [List.getD_eq_getElem?_getD, List.getElem?_eq_getElem h2] at hp
    exact hp
  · rintro rfl
    unfold ctResult
    have : ctLoop a a = 0 := (ctLoop_eq_zero_iff a a).mpr fun i _ => rfl
    rw [this, Nat.xor_self]
    rfl

/-! ## Claim theorems -/

/-- **C1**: for every pair of C strings `a` and `b` (nonzero bytes,
each below 256), `native_constant_time_equal` called with `argc == 2`
and both arguments of string type returns the boolean true if and only
if `a` and `b` have equal content. -/
theorem constant_time_equal_true_iff (a b : List Nat)
    (ha : ∀ c ∈ a, 0 < c ∧ c < 256) (hb : ∀ c ∈ b, 0 < c ∧ c < 256) :
    native_constant_time_equal [.vstr a, .vstr b] = .vbool true ↔ a = b := by
  have hev : native_constant_time_equal [.vstr a, .vstr b] =
      .vbool (ctResult a b == 0) := rfl
  rw [hev]
  constructor
  · intro h
    have h' := RayaValue.vbool.inj h
    exact (ctResult_eq_zero_iff a b ha hb).mp (by simpa using h')
  · intro h
    have := (ctResult_eq_zero_iff a b ha hb).mpr h
    simp [this]

/-- Witness for C1 at two independently built equal strings. -/
theorem constant_time_equal_true_iff_witness :
    (native_constant_time_equal
        [.vstr (ascii "secret"), .vstr (ascii "secret")] = .vbool true ↔
      ascii "secret" = ascii "secret") :=
  constant_time_equal_true_iff (ascii "secret") (ascii "secret")
    (by decide) (by decide)

/-- **C2**: the comparison loop of `native_constant_time_equal`
executes exactly `max(len_a, len_b)` iterations — one entry of
`ctReads` per iteration, regardless of where the inputs first differ —
the loop result is exactly the OR-fold of those reads, and the
iteration `i` reads position `i` of each input (or the padding byte 0
past its end). -/
theorem ct_loop_iteration_count (a b : List Nat) :
    (ctReads a b).length = max a.length b.length ∧
    ctLoop a b = (ctReads a b).foldl (fun r p => r ||| (p.1 ^^^ p.2)) 0 ∧
    ∀ i, i < max a.length b.length →
      (ctReads a b).getD i (0, 0) =
        ((if i < a.length then a.getD i 0 else 0),
         (if i < b.length then b.getD i 0 else 0)) := by
  refine ⟨by simp [ctReads], ?_, ?_⟩
  · simp [ctLoop, ctReads, List.foldl_map]
  · intro i hi
    have hlen : i < (ctReads a b).length := by
      simpa [ctReads] using hi
    rw [List.getD_eq_getElem?_getD, List.getElem?_eq_getElem hlen]
    simp [ctReads]

/-- **C3**: `native_random_bytes` with `argc == 1` and an integer
argument fails with the argument error whenever the length is
non-positive or above the cap 1048576, and for any length from 1 to
the cap returns an array of exactly that many elements. -/
theorem random_bytes_length_check (rand : Nat → Nat) (len : Int)
    (hlo : -(2 ^ 31) ≤ len) (hhi : len < 2 ^ 31) :
    ((len ≤ 0 ∨ len > 1048576) →
      native_random_bytes rand [.vi32 len] =
        .verr (ascii "Length must be between 1 and 1048576")) ∧
    ((1 ≤ len ∧ len ≤ 1048576) →
      ∃ elems, native_random_bytes rand [.vi32 len] = .varr elems ∧
        elems.length = len.toNat) := by
  have hev : native_random_bytes rand [.vi32 len] =
      if len ≤ 0 ∨ len > 1024 * 1024 then
        .verr (ascii "Length must be between 1 and 1048576")
      else .varr ((List.range len.toNat).map fun i => .vi32 (rand i % 256)) :=
    rfl
  constructor
  · intro h
    rw [hev, if_pos (by omega)]
  · rintro ⟨h1, h2⟩
    rw [hev, if_neg (by omega)]
    exact ⟨_, rfl, by simp⟩

/-- Witness for C3 at the cap itself: length 1048576 succeeds with
exactly 1048576 elements. -/
theorem random_bytes_length_check_witness :
    ∃ elems, native_random_bytes zeroRand [.vi32 1048576] = .varr elems ∧
      elems.length = (1048576 : Int).toNat :=
  (random_bytes_length_check zeroRand 1048576 (by decide) (by decide)).2
    (by constructor <;> decide)

/-! ## Per-function argument-count lemmas (shared by the argc claims) -/

theorem readFileVisit_ne_argc (v : List Nat) :
    readFileVisit v ≠ .verr (ascii "readFile() requires 1 argument") := by
  unfold readFileVisit
  split
  · next hpre =>
    intro h
    have hv := RayaValue.verr.inj h
    rcases hpre with hp | hp <;>
      rw [ List.isPrefixOf_iff_prefix] at hp <;> rcases hp with ⟨u, hu⟩ <;>
      rw [← hu] at hv
    · exact append_ne_of_first_ne (ascii "Error") u _ (by decide)
        (by decide) hv
    · exact append_ne_of_first_ne (ascii "Failed") u _ (by decide)
        (by decide) hv
  · intro h
    simp at h

theorem hash_argc_iff (s256 s512 : List Nat → List Nat)
    (args : List RayaValue) :
    native_hash s256 s512 args = .verr (ascii "hash() requires 2 arguments")
      ↔ args.length ≠ 2 := by
  refine ⟨fun h => ?_, fun h => by
    simp only [native_hash]; rw [if_pos h]⟩
  by_contra hlen
  simp only [native_hash, hlen] at h
  rw [if_neg (by omega)] at h
  split at h
  · exact absurd (RayaValue.verr.inj h) (by decide)
  · split at h
    · exact absurd (RayaValue.verr.inj h) (by decide)
    · split at h
      · simp at h
      · split at h
        · simp at h
        · have hv := RayaValue.verr.inj h
          rw [List.append_assoc] at hv
          exact append_ne_of_first_ne (ascii "Unsupported hash algorithm: ")
            _ _ (by decide) (by decide) hv

theorem random_bytes_argc_iff (rand : Nat → Nat) (args : List RayaValue) :
    native_random_bytes rand args =
        .verr (ascii "randomBytes() requires 1 argument")
      ↔ args.length ≠ 1 := by
  refine ⟨fun h => ?_, fun h => by
    simp only [native_random_bytes]; rw [if_pos h]⟩
  by_contra hlen
  simp only [native_random_bytes, hlen] at h
  rw [if_neg (by omega)] at h
  split at h
  · exact absurd (RayaValue.verr.inj h) (by decide)
  · simp at h

theorem ct_equal_argc_iff (args : List RayaValue) :
    native_constant_time_equal args =
        .verr (ascii "constantTimeEqual() requires 2 arguments")
      ↔ args.length ≠ 2 := by
  refine ⟨fun h => ?_, fun h => by
    simp only [native_constant_time_equal]; rw [if_pos h]⟩
  by_contra hlen
  simp only [native_constant_time_equal, hlen] at h
  rw [if_neg (by omega)] at h
  rcases h0 : raya_value_to_string (args.getD 0 .vnull) with _ | a <;>
    rcases h1 : raya_value_to_string (args.getD 1 .vnull) with _ | b <;>
    rw [h0, h1] at h
  · exact absurd (RayaValue.verr.inj h) (by decide)
  · exact absurd (RayaValue.verr.inj h) (by decide)
  · exact absurd (RayaValue.verr.inj h) (by decide)
  · simp at h

theorem read_file_argc_iff (fs : FsState) (args : List RayaValue) :
    native_read_file fs args = .verr (ascii "readFile() requires 1 argument")
      ↔ args.length ≠ 1 := by
  refine ⟨fun h => ?_, fun h => by
    simp only [native_read_file]; rw [if_pos h]⟩
  by_contra hlen
  simp only [native_read_file, hlen] at h
  rw [if_neg (by omega)] at h
  rcases hr : fs_ops.read_file fs
      (TypeConverter.string_from_raya (args.getD 0 .vnull)) with v | v <;>
    rw [hr] at h <;> exact readFileVisit_ne_argc v h

theorem write_file_argc_iff (fs : FsState) (args : List RayaValue) :
    native_write_file fs args = .verr (ascii "writeFile() requires 2 arguments")
      ↔ args.length ≠ 2 := by
  refine ⟨fun h => ?_, fun h => by
    simp only [native_write_file]; rw [if_pos h]⟩
  by_contra hlen
  simp only [native_write_file, hlen] at h
  rw [if_neg (by omega)] at h
  rcases hr : fs_ops.write_file fs
      (TypeConverter.string_from_raya (args.getD 0 .vnull))
      (TypeConverter.string_from_raya (args.getD 1 .vnull)) with e | v <;>
    rw [hr] at h
  · have hv := RayaValue.verr.inj h
    unfold fs_ops.write_file at hr
    split at hr
    · split at hr
      · simp at hr
      · have he := Except.error.inj hr
        rw [← he] at hv
        exact append_ne_of_first_ne (ascii "Failed to write to file: ")
          _ _ (by decide) (by decide) hv
    · have he := Except.error.inj hr
      rw [← he] at hv
      exact append_ne_of_first_ne
        (ascii "Failed to open file for writing: ") _ _ (by decide)
        (by decide) hv
  · simp at h

theorem exists_argc_iff (fs : FsState) (args : List RayaValue) :
    native_exists fs args = .verr (ascii "exists() requires 1 argument")
      ↔ args.length ≠ 1 := by
  refine ⟨fun h => ?_, fun h => by
    simp only [native_exists]; rw [if_pos h]⟩
  by_contra hlen
  simp only [native_exists, hlen] at h
  rw [if_neg (by omega)] at h
  simp [TypeConverter.bool_to_raya] at h

theorem mkdir_argc_iff (fs : FsState) (args : List RayaValue) :
    native_mkdir fs args = .verr (ascii "mkdir() requires 1 argument")
      ↔ args.length ≠ 1 := by
  refine ⟨fun h => ?_, fun h => by
    simp only [native_mkdir]; rw [if_pos h]⟩
  by_contra hlen
  simp only [native_mkdir, hlen] at h
  rw [if_neg (by omega)] at h
  rcases hr : fs_ops.mkdir fs
      (TypeConverter.string_from_raya (args.getD 0 .vnull)) with e | v <;>
    rw [hr] at h
  · have hv := RayaValue.verr.inj h
    unfold fs_ops.mkdir at hr
    split at hr
    · have he := Except.error.inj hr
      rw [← he] at hv
      exact append_ne_of_first_ne (ascii "Failed to create directory: ")
        _ _ (by decide) (by decide) hv
    · simp at hr
  · simp at h

theorem remove_argc_iff (fs : FsState) (args : List RayaValue) :
    native_remove fs args = .verr (ascii "remove() requires 1 argument")
      ↔ args.length ≠ 1 := by
  refine ⟨fun h => ?_, fun h => by
    simp only [native_remove]; rw [if_pos h]⟩
  by_contra hlen
  simp only [native_remove, hlen] at h
  rw [if_neg (by omega)] at h
  rcases hr : fs_ops.remove fs
      (TypeConverter.string_from_raya (args.getD 0 .vnull)) with e | v <;>
    rw [hr] at h
  · have hv := RayaValue.verr.inj h
    unfold fs_ops.remove at hr
    split at hr
    · have he := Except.error.inj hr
      rw [← he] at hv
      exact append_ne_of_first_ne (ascii "Failed to remove: ")
        _ _ (by decide) (by decide) hv
    · simp at hr
  · simp [TypeConverter.bool_to_raya] at h

theorem list_dir_argc_iff (fs : FsState) (args : List RayaValue) :
    native_list_dir fs args = .verr (ascii "listDir() requires 1 argument")
      ↔ args.length ≠ 1 := by
  refine ⟨fun h => ?_, fun h => by
    simp only [native_list_dir]; rw [if_pos h]⟩
  by_contra hlen
  simp only [native_list_dir, hlen] at h
  rw [if_neg (by omega)] at h
  rcases hr : fs_ops.list_dir fs
      (TypeConverter.string_from_raya (args.getD 0 .vnull)) with e | v <;>
    rw [hr] at h
  · have hv := RayaValue.verr.inj h
    unfold fs_ops.list_dir at hr
    split at hr
    · simp at hr
    · have he := Except.error.inj hr
      rw [← he] at hv
      exact append_ne_of_first_ne (ascii "Error listing directory: ")
        _ _ (by decide) (by decide) hv
  · simp at h

/-- **C4**: every exported native function of the crypto and fs modules
returns an error value carrying its argument-count message when `argc`
differs from its required count, and the engine (modelled from the
spec) dispatches the call without any arity check of its own. -/
theorem argc_checked_by_each_function (s256 s512 : List Nat → List Nat)
    (rand : Nat → Nat) (fs : FsState) (args : List RayaValue) :
    (args.length ≠ 2 →
      native_hash s256 s512 args = .verr (ascii "hash() requires 2 arguments") ∧
      native_constant_time_equal args =
        .verr (ascii "constantTimeEqual() requires 2 arguments") ∧
      native_write_file fs args =
        .verr (ascii "writeFile() requires 2 arguments")) ∧
    (args.length ≠ 1 →
      native_random_bytes rand args =
        .verr (ascii "randomBytes() requires 1 argument") ∧
      native_read_file fs args =
        .verr (ascii "readFile() requires 1 argument") ∧
      native_exists fs args = .verr (ascii "exists() requires 1 argument") ∧
      native_mkdir fs args = .verr (ascii "mkdir() requires 1 argument") ∧
      native_remove fs args = .verr (ascii "remove() requires 1 argument") ∧
      native_list_dir fs args =
        .verr (ascii "listDir() requires 1 argument")) ∧
    (∀ (f : List RayaValue → RayaValue) (arity arity' : Nat),
      engine_invoke f arity args = f args ∧
      engine_invoke f arity args = engine_invoke f arity' args) := by
  refine ⟨fun h => ⟨?_, ?_, ?_⟩, fun h => ⟨?_, ?_, ?_, ?_, ?_, ?_⟩,
    fun f arity arity' => ⟨rfl, rfl⟩⟩
  · exact (hash_argc_iff s256 s512 args).mpr h
  · exact (ct_equal_argc_iff args).mpr h
  · exact (write_file_argc_iff fs args).mpr h
  · exact (random_bytes_argc_iff rand args).mpr h
  · exact (read_file_argc_iff fs args).mpr h
  · exact (exists_argc_iff fs args).mpr h
  · exact (mkdir_argc_iff fs args).mpr h
  · exact (remove_argc_iff fs args).mpr h
  · exact (list_dir_argc_iff fs args).mpr h

/-- Witness for C4 at the zero-argument call. -/
theorem argc_checked_by_each_function_witness :
    native_hash zero32 zero64 [] =
      .verr (ascii "hash() requires 2 arguments") ∧
    native_read_file fsEnv0 [] =
      .verr (ascii "readFile() requires 1 argument") ∧
    engine_invoke (native_exists fsEnv0) 1 [] = native_exists fsEnv0 [] := by
  have h := argc_checked_by_each_function zero32 zero64 zeroRand fsEnv0 []
  exact ⟨(h.1 (by decide)).1, (h.2.1 (by decide)).2.1,
    (h.2.2 (native_exists fsEnv0) 1 1).1⟩

/-- **C5** counterexample: `native_exists` called with an integer
argument (a runtime type mismatch) does not return an error value
reporting the mismatch — it converts the accessor's NULL sentinel to
the empty string and returns the ordinary boolean answer for the empty
path, exactly as if the caller had passed the string `""`. -/
theorem type_validation_counterexample :
    native_exists fsEnv0 [.vi32 0] = .vbool false ∧
    native_exists fsEnv0 [.vi32 0] = native_exists fsEnv0 [.vstr []] :=
  ⟨rfl, rfl⟩

/-- **C5** amended: only the crypto module validates argument types
before trusting accessor output.  For any argument whose runtime type
is not string, `native_hash` reports a type-mismatch error in either
position and `native_constant_time_equal` reports one in either
position; `TypeConverter<std::string>::from_raya` instead converts the
NULL sentinel of such an argument to the empty string, so each of the
six fs functions proceeds exactly as if the caller had passed `""`.
For any argument whose runtime type is not i32,
`native_random_bytes` folds the `0` sentinel into its range check and
reports the range error, not a type error. -/
theorem type_validation_amended (s256 s512 : List Nat → List Nat)
    (rand : Nat → Nat) (fs : FsState) (v w : RayaValue) :
    (v.isStr = false →
      native_hash s256 s512 [v, w] =
        .verr (ascii "First argument must be a string") ∧
      (∀ s, native_hash s256 s512 [.vstr s, v] =
        .verr (ascii "Second argument must be a string")) ∧
      native_constant_time_equal [v, w] =
        .verr (ascii "Both arguments must be strings") ∧
      (∀ s, native_constant_time_equal [.vstr s, v] =
        .verr (ascii "Both arguments must be strings")) ∧
      TypeConverter.string_from_raya v = [] ∧
      native_read_file fs [v] = native_read_file fs [.vstr []] ∧
      native_write_file fs [v, w] = native_write_file fs [.vstr [], w] ∧
      native_exists fs [v] = native_exists fs [.vstr []] ∧
      native_exists fs [v] = .vbool (fs.existsB []) ∧
      native_mkdir fs [v] = native_mkdir fs [.vstr []] ∧
      native_remove fs [v] = native_remove fs [.vstr []] ∧
      native_list_dir fs [v] = native_list_dir fs [.vstr []]) ∧
    (v.isI32 = false →
      native_random_bytes rand [v] =
        .verr (ascii "Length must be between 1 and 1048576")) := by
  constructor
  · intro hs
    have hnone : raya_value_to_string v = none := by
      cases v <;> first
        | rfl
        | simp [RayaValue.isStr] at hs
    have hv : ∀ s, raya_value_to_string (RayaValue.vstr s) = some s :=
      fun s => rfl
    have hfrv : TypeConverter.string_from_raya v = [] := by
      simp [TypeConverter.string_from_raya, hnone]
    have hfr0 : TypeConverter.string_from_raya (RayaValue.vstr []) = [] :=
      rfl
    refine ⟨?_, ?_, ?_, ?_, hfrv, ?_, ?_, ?_, ?_, ?_, ?_, ?_⟩
    · simp [native_hash, hnone]
    · intro s
      simp [native_hash, hnone, hv]
    · simp [native_constant_time_equal, hnone]
    · intro s
      simp [native_constant_time_equal, hnone, hv]
    · simp [native_read_file, hfrv, hfr0]
    · simp [native_write_file, hfrv, hfr0]
    · simp [native_exists, hfrv, hfr0]
    · simp [native_exists, hfrv, TypeConverter.bool_to_raya,
        fs_ops.fsexists]
    · simp [native_mkdir, hfrv, hfr0]
    · simp [native_remove, hfrv, hfr0]
    · simp [native_list_dir, hfrv, hfr0]
  · intro hi
    have hzero : raya_value_to_i32 v = 0 := by
      cases v <;> first
        | rfl
        | simp [RayaValue.isI32] at hi
    simp [native_random_bytes, hzero]

/-- Witness for the amended C5: an integer argument to the string-typed
functions (hash and the fs module) and a string argument to
`native_random_bytes`. -/
theorem type_validation_amended_witness :
    native_hash zero32 zero64 [.vi32 0, .vnull] =
      .verr (ascii "First argument must be a string") ∧
    native_exists fsEnv0 [.vi32 0] = native_exists fsEnv0 [.vstr []] ∧
    native_read_file fsEnv0 [.vi32 0] = native_read_file fsEnv0 [.vstr []] ∧
    native_random_bytes zeroRand [.vstr []] =
      .verr (ascii "Length must be between 1 and 1048576") := by
  have h1 := (type_validation_amended zero32 zero64 zeroRand fsEnv0
    (.vi32 0) .vnull).1 rfl
  have h2 := (type_validation_amended zero32 zero64 zeroRand fsEnv0
    (.vstr []) .vnull).2 rfl
  exact ⟨h1.1, h1.2.2.2.2.2.2.2.1, h1.2.2.2.2.2.1, h2⟩

/-- **C6**: when the underlying read succeeds but the file's content
begins with `"Error"` or `"Failed"`, `native_read_file` returns an
error value carrying the content instead of the content itself. -/
theorem read_file_prefix_sniffing (fs : FsState) (path content : List Nat)
    (hread : fs.files path = some content)
    (hpre : (ascii "Error").isPrefixOf content ∨
            (ascii "Failed").isPrefixOf content) :
    native_read_file fs [.vstr path] = .verr content := by
  have hev : native_read_file fs [.vstr path] =
      match fs_ops.read_file fs path with
      | .ok v => readFileVisit v
      | .error v => readFileVisit v := rfl
  have hr : fs_ops.read_file fs path = .ok content := by
    unfold fs_ops.read_file
    rw [hread]
  rw [hev, hr]
  show readFileVisit content = RayaValue.verr content
  unfold readFileVisit
  rw [if_pos hpre]

/-- Witness for C6: a readable file whose content is `"Error!"` comes
back as an error value. -/
theorem read_file_prefix_sniffing_witness :
    native_read_file fsEnv0 [.vstr (ascii "f")] = .verr (ascii "Error!") :=
  read_file_prefix_sniffing fsEnv0 (ascii "f") (ascii "Error!")
    (by decide) (by decide)

/-- **C7**: although `raya_error_message` exposes only message text, a
host caller can recover the error kind from that text alone
(`classifyMessage` inverts it), so the Unsupported failure of
`raya_vm_snapshot` on a build without snapshotting is observably
different from any Runtime failure. -/
theorem unsupported_distinguishable_from_runtime (e : RayaErrorObj) :
    classifyMessage (raya_error_message e) = some e.kind ∧
    (∀ q, raya_vm_snapshot false q =
      .error ⟨.unsupportedErr, ascii "snapshotting is not implemented"⟩) ∧
    (∀ d d', raya_error_message ⟨.unsupportedErr, d⟩ ≠
      raya_error_message ⟨.runtimeErr, d'⟩) := by
  refine ⟨?_, fun q => rfl, fun d d' => ?_⟩
  · obtain ⟨k, d⟩ := e
    cases k
    · simp only [raya_error_message, kindTag, classifyMessage]
      simp [isPrefixOf_append_self]
    · simp only [raya_error_message, kindTag, classifyMessage]
      rw [isPrefixOf_false_of_first_ne (ascii "Init: ") (ascii "Load: ") d
          (by decide) (by decide) (by decide)]
      simp [isPrefixOf_append_self]
    · simp only [raya_error_message, kindTag, classifyMessage]
      rw [isPrefixOf_false_of_first_ne (ascii "Init: ") (ascii "Runtime: ") d
          (by decide) (by decide) (by decide),
        isPrefixOf_false_of_first_ne (ascii "Load: ") (ascii "Runtime: ") d
          (by decide) (by decide) (by decide)]
      simp [isPrefixOf_append_self]
    · simp only [raya_error_message, kindTag, classifyMessage]
      rw [isPrefixOf_false_of_first_ne (ascii "Init: ")
          (ascii "ArgumentError: ") d (by decide) (by decide) (by decide),
        isPrefixOf_false_of_first_ne (ascii "Load: ")
          (ascii "ArgumentError: ") d (by decide) (by decide) (by decide),
        isPrefixOf_false_of_first_ne (ascii "Runtime: ")
          (ascii "ArgumentError: ") d (by decide) (by decide) (by decide)]
      simp [isPrefixOf_append_self]
    · simp only [raya_error_message, kindTag, classifyMessage]
      rw [isPrefixOf_false_of_first_ne (ascii "Init: ")
          (ascii "Unsupported: ") d (by decide) (by decide) (by decide),
        isPrefixOf_false_of_first_ne (ascii "Load: ")
          (ascii "Unsupported: ") d (by decide) (by decide) (by decide),
        isPrefixOf_false_of_first_ne (ascii "Runtime: ")
          (ascii "Unsupported: ") d (by decide) (by decide) (by decide),
        isPrefixOf_false_of_first_ne (ascii "ArgumentError: ")
          (ascii "Unsupported: ") d (by decide) (by decide) (by decide)]
      simp [isPrefixOf_append_self]
  · simp only [raya_error_message, kindTag]
    exact append_ne_append_of_first_ne (ascii "Unsupported: ") d
      (ascii "Runtime: ") d' (by decide) (by decide) (by decide)

/-- **C8**: each release function of the C API is a no-op on a NULL
handle, and destroying an already-destroyed VM handle is again a no-op
that leaves the allocator state (including its corruption flag)
unchanged. -/
theorem release_functions_null_noop (s : AllocState) (h : Nat) :
    raya_value_free none s = s ∧ raya_error_free none s = s ∧
    raya_snapshot_free none s = s ∧ raya_vm_destroy none s = s ∧
    raya_vm_destroy (some h) (raya_vm_destroy (some h) s) =
      raya_vm_destroy (some h) s ∧
    (raya_vm_destroy (some h) s).corrupted = s.corrupted := by
  refine ⟨rfl, rfl, rfl, rfl, ?_, ?_⟩
  · by_cases hm : h ∈ s.liveVMs
    · simp [raya_vm_destroy, hm, List.mem_filter]
    · simp [raya_vm_destroy, hm]
  · by_cases hm : h ∈ s.liveVMs
    · simp [raya_vm_destroy, hm]
    · simp [raya_vm_destroy, hm]

/-! ## Hex-conversion lemmas for C9 -/

theorem toHexString_length (d : List Nat) :
    (toHexString d).length = 2 * d.length := by
  induction d with
  | nil => rfl
  | cons x xs ih =>
    simp only [toHexString, List.map_cons, List.flatten_cons,
      List.length_append, List.length_cons] at ih ⊢
    simp only [hexByte, List.length_cons, List.length_nil]
    omega

theorem hexDigit_isLowerHex {n : Nat} (h : n < 16) :
    isLowerHexDigit (hexDigit n) := by
  unfold hexDigit isLowerHexDigit
  split
  · left; omega
  · right; omega

theorem toHexString_mem (d : List Nat) (hd : ∀ c ∈ d, c < 256) :
    ∀ c ∈ toHexString d, isLowerHexDigit c := by
  intro c hc
  simp only [toHexString, List.mem_flatten, List.mem_map] at hc
  rcases hc with ⟨l, ⟨b, hb, rfl⟩, hcl⟩
  have hb256 := hd b hb
  simp only [hexByte, List.mem_cons, List.not_mem_nil, or_false] at hcl
  rcases hcl with rfl | rfl
  · exact hexDigit_isLowerHex (by omega)
  · exact hexDigit_isLowerHex (by omega)

/-- **C9**: with `argc == 2` and two string arguments, `native_hash`
returns a 64-character lowercase-hex string for `"sha256"`, a
128-character lowercase-hex string for `"sha512"`, and for every other
algorithm an error value whose message names that algorithm
(the hypotheses state the digest lengths OpenSSL guarantees). -/
theorem hash_algorithm_output (s256 s512 : List Nat → List Nat)
    (alg data : List Nat)
    (h256 : ∀ d, (s256 d).length = 32 ∧ ∀ c ∈ s256 d, c < 256)
    (h512 : ∀ d, (s512 d).length = 64 ∧ ∀ c ∈ s512 d, c < 256) :
    (alg = ascii "sha256" →
      ∃ hex, native_hash s256 s512 [.vstr alg, .vstr data] = .vstr hex ∧
        hex.length = 64 ∧ ∀ c ∈ hex, isLowerHexDigit c) ∧
    (alg = ascii "sha512" →
      ∃ hex, native_hash s256 s512 [.vstr alg, .vstr data] = .vstr hex ∧
        hex.length = 128 ∧ ∀ c ∈ hex, isLowerHexDigit c) ∧
    (alg ≠ ascii "sha256" → alg ≠ ascii "sha512" →
      native_hash s256 s512 [.vstr alg, .vstr data] =
        .verr (ascii "Unsupported hash algorithm: " ++ alg ++
               ascii " (supported: sha256, sha512)")) := by
  refine ⟨fun h => ?_, fun h => ?_, fun h1 h2 => ?_⟩
  · refine ⟨toHexString (s256 data), ?_, ?_, toHexString_mem _ (h256 data).2⟩
    · simp [native_hash, raya_value_to_string, h]
    · rw [toHexString_length, (h256 data).1]
  · refine ⟨toHexString (s512 data), ?_, ?_, toHexString_mem _ (h512 data).2⟩
    · simp [native_hash, raya_value_to_string, h,
        show ascii "sha512" ≠ ascii "sha256" by decide]
    · rw [toHexString_length, (h512 data).1]
  · simp [native_hash, raya_value_to_string, h1, h2]

/-- Witness for C9 at the unsupported algorithm `"md5"` with conforming
digest oracles. -/
theorem hash_algorithm_output_witness :
    native_hash zero32 zero64 [.vstr (ascii "md5"), .vstr []] =
      .verr (ascii "Unsupported hash algorithm: " ++ ascii "md5" ++
             ascii " (supported: sha256, sha512)") :=
  (hash_algorithm_output zero32 zero64 (ascii "md5") []
    (fun d => ⟨rfl, fun c hc => by
      simp only [zero32, List.mem_replicate] at hc; omega⟩)
    (fun d => ⟨rfl, fun c hc => by
      simp only [zero64, List.mem_replicate] at hc; omega⟩)).2.2
    (by decide) (by decide)

/-- **C10**: the module initializers register exactly the documented
entries, and for each registered function the declared arity is the
unique argument count at which the function's body does not return its
argument-count error. -/
theorem declared_arity_matches_argc_check (s256 s512 : List Nat → List Nat)
    (rand : Nat → Nat) (fs : FsState) :
    (raya_module_init_crypto s256 s512 rand).entries =
      [⟨"hash", native_hash s256 s512, 2⟩,
       ⟨"randomBytes", native_random_bytes rand, 1⟩,
       ⟨"constantTimeEqual", native_constant_time_equal, 2⟩] ∧
    (raya_module_init_fs fs).entries =
      [⟨"readFile", native_read_file fs, 1⟩,
       ⟨"writeFile", native_write_file fs, 2⟩,
       ⟨"exists", native_exists fs, 1⟩,
       ⟨"mkdir", native_mkdir fs, 1⟩,
       ⟨"remove", native_remove fs, 1⟩,
       ⟨"listDir", native_list_dir fs, 1⟩] ∧
    (∀ args, native_hash s256 s512 args =
        .verr (ascii "hash() requires 2 arguments") ↔ args.length ≠ 2) ∧
    (∀ args, native_random_bytes rand args =
        .verr (ascii "randomBytes() requires 1 argument") ↔
          args.length ≠ 1) ∧
    (∀ args, native_constant_time_equal args =
        .verr (ascii "constantTimeEqual() requires 2 arguments") ↔
          args.length ≠ 2) ∧
    (∀ args, native_read_file fs args =
        .verr (ascii "readFile() requires 1 argument") ↔
          args.length ≠ 1) ∧
    (∀ args, native_write_file fs args =
        .verr (ascii "writeFile() requires 2 arguments") ↔
          args.length ≠ 2) ∧
    (∀ args, native_exists fs args =
        .verr (ascii "exists() requires 1 argument") ↔ args.length ≠ 1) ∧
    (∀ args, native_mkdir fs args =
        .verr (ascii "mkdir() requires 1 argument") ↔ args.length ≠ 1) ∧
    (∀ args, native_remove fs args =
        .verr (ascii "remove() requires 1 argument") ↔ args.length ≠ 1) ∧
    (∀ args, native_list_dir fs args =
        .verr (ascii "listDir() requires 1 argument") ↔ args.length ≠ 1) :=
  ⟨rfl, rfl, hash_argc_iff s256 s512, random_bytes_argc_iff rand,
    ct_equal_argc_iff, read_file_argc_iff fs, write_file_argc_iff fs,
    exists_argc_iff fs, mkdir_argc_iff fs, remove_argc_iff fs,
    list_dir_argc_iff fs⟩
